import Mathlib

/-
Verification of the korangar camera math and instance-batching draw
preparation pipeline.

The development shallowly embeds the relevant Rust sources:
  * src/korangar/src/graphics/cameras/mod.rs
      (clip/screen conversions, the direction bucketing, the orthographic
      and perspective projection builders)
  * src/korangar/src/graphics/passes/geometry/entity.rs
  * src/korangar/src/graphics/passes/picker/entity.rs
  * src/korangar/src/graphics/passes/screen/aabb.rs
  * src/korangar/src/graphics/passes/postprocessing/blitter.rs

f32 arithmetic is idealised: pure field arithmetic is embedded over the
rationals (so everything stays executable), and code using sqrt, atan2, tan
or limits is embedded over the reals.  f32 payload fields that the batchers
only copy and never inspect (world matrices, UV rectangles, offsets) are
represented by opaque integer tags.
-/

open Real Filter

/-- A 2-component vector, mirroring cgmath Vector2. -/
structure Vec2 (K : Type) where
  x : K
  y : K
deriving DecidableEq, Repr

/-- A 4-component vector, mirroring cgmath Vector4. -/
structure Vec4 (K : Type) where
  x : K
  y : K
  z : K
  w : K
deriving DecidableEq, Repr

/-- A column-major 4x4 matrix, mirroring cgmath Matrix4::from_cols. -/
structure Mat4 (K : Type) where
  c0 : Vec4 K
  c1 : Vec4 K
  c2 : Vec4 K
  c3 : Vec4 K
deriving DecidableEq, Repr

/-- Matrix-vector product, `m * v` for a column-major cgmath Matrix4. -/
def matVec {K : Type} [CommRing K] (m : Mat4 K) (v : Vec4 K) : Vec4 K :=
  { x := m.c0.x * v.x + m.c1.x * v.y + m.c2.x * v.z + m.c3.x * v.w
    y := m.c0.y * v.x + m.c1.y * v.y + m.c2.y * v.z + m.c3.y * v.w
    z := m.c0.z * v.x + m.c1.z * v.y + m.c2.z * v.z + m.c3.z * v.w
    w := m.c0.w * v.x + m.c1.w * v.y + m.c2.w * v.z + m.c3.w * v.w }

/-- `Camera::clip_to_screen_space` (cameras/mod.rs lines 121-125):
converts a clip space location (NDC) into screen space UV coordinates. -/
def clip_to_screen_space (clip_space_position : Vec4 ℚ) : Vec2 ℚ :=
  let x := clip_space_position.x / clip_space_position.w
  let y := clip_space_position.y / clip_space_position.w
  { x := (x + 1) * (1/2), y := (1 - y) * (1/2) }

/-- `Camera::screen_to_clip_space` (cameras/mod.rs lines 131-135):
converts screen space UV coordinates into a clip space location. -/
def screen_to_clip_space (screen_space_position : Vec2 ℚ) : Vec4 ℚ :=
  { x := screen_space_position.x * 2 - 1
    y := -(screen_space_position.y * 2 - 1)
    z := 0
    w := 1 }

/-- `orthographic_lh` (cameras/mod.rs lines 183-194). -/
def orthographic_lh (left right bottom top near far : ℚ) : Mat4 ℚ :=
  let width := 1 / (right - left)
  let height := 1 / (top - bottom)
  let depth := 1 / (far - near)
  { c0 := { x := width + width, y := 0, z := 0, w := 0 }
    c1 := { x := 0, y := height + height, z := 0, w := 0 }
    c2 := { x := 0, y := 0, z := depth, w := 0 }
    c3 := { x := -(left + right) * width, y := -(top + bottom) * height, z := -depth * near, w := 1 } }

/-- `NEAR_PLANE` (cameras/mod.rs line 25). -/
noncomputable def NEAR_PLANE : ℝ := 1

/-- `perspective_reverse_lh` (cameras/mod.rs lines 204-215). -/
noncomputable def perspective_reverse_lh (vertical_fov aspect_ratio : ℝ) : Mat4 ℝ :=
  let tangent := Real.tan (vertical_fov / 2)
  let height := 1 / tangent
  let width := height / aspect_ratio
  { c0 := { x := width, y := 0, z := 0, w := 0 }
    c1 := { x := 0, y := height, z := 0, w := 0 }
    c2 := { x := 0, y := 0, z := 0, w := 1 }
    c3 := { x := 0, y := 0, z := NEAR_PLANE, w := 0 } }

/-- Model of `f32::atan2(a, b)` (IEEE atan2 with the first argument in the
sine position), ignoring NaN inputs and signed zeros. -/
noncomputable def ratan2 (a b : ℝ) : ℝ :=
  if 0 < b then Real.arctan (a / b)
  else if b < 0 then
    (if 0 ≤ a then Real.arctan (a / b) + Real.pi else Real.arctan (a / b) - Real.pi)
  else
    (if 0 < a then Real.pi / 2 else if a < 0 then -(Real.pi / 2) else 0)

/-- `direction` (cameras/mod.rs lines 167-175) with `inverted = false`.
The source computes
  `k = (atan2(vector.normalize().x, vector.y) * (180/PI) + 360 - 22.5) / 45`
cast `as usize` and returns `!k & 7`.  Note that only the x component is
normalized; the y component is passed raw.  The `as usize` cast truncates
toward zero and saturates negative values at zero, which on this expression
agrees with `Int.toNat ∘ Int.floor`; `!k & 7` keeps the complemented low
three bits of `k`, which for a natural number `k` equals `7 - k % 8`. -/
noncomputable def direction (x y : ℝ) : ℕ :=
  7 - (Int.toNat ⌊(ratan2 (x / Real.sqrt (x ^ 2 + y ^ 2)) y * (180 / Real.pi) + 360 - 22.5) / 45⌋) % 8

/-- The direction bucketing exactly as the claim states it:
`k = floor((atan2(x, y) * 180/PI + 360 - 22.5) / 45)`, result `(~k) & 7`,
with the raw (unnormalized) x component. -/
noncomputable def direction_claimed (x y : ℝ) : ℕ :=
  7 - (Int.toNat ⌊(ratan2 x y * (180 / Real.pi) + 360 - 22.5) / 45⌋) % 8

/-- The direction bucketing as amended: identical to the claimed formula
except that the first atan2 argument is the x component divided by the
magnitude of the whole vector (only x is normalized), exactly as the source
passes `vector.normalize().x` but the raw `vector.y`. -/
noncomputable def direction_normalized_x (x y : ℝ) : ℕ :=
  7 - (Int.toNat ⌊(ratan2 (x / Real.sqrt (x ^ 2 + y ^ 2)) y * (180 / Real.pi) + 360 - 22.5) / 45⌋) % 8

/-- A GPU command recorded on a render pass. -/
inductive GpuCommand where
  | setPipeline : GpuCommand
  | setBindGroup (index : ℕ) : GpuCommand
  | setVertexBuffer (slot : ℕ) : GpuCommand
  | setIndexBuffer : GpuCommand
  | draw (vertexCount instanceCount : ℕ) : GpuCommand
  | drawIndexed (indexCount : ℕ) (baseVertex : ℤ) (instanceCount : ℕ) : GpuCommand
deriving DecidableEq, Repr

/-- One entity render instruction (the fields of `EntityInstruction` that the
geometry and picker entity drawers read).  The texture field is the stable
handle `instruction.texture.get_texture().global_id().inner()`; the f32
payload fields that are only copied into instance records are kept as opaque
integer tags; a texture view stands for its owning texture handle. -/
structure EntityInstruction where
  texture : ℕ
  world : ℤ
  texture_position : ℤ
  texture_size : ℤ
  depth_offset : ℤ
  curvature : ℤ
  mirror : Bool
  entity_id : ℕ
deriving DecidableEq, Repr

/-- `HashMap::get` on the texture dedup table, modelled as an association
list keyed by texture handle. -/
def lookupGet (m : List (ℕ × ℤ)) (id : ℕ) : Option ℤ :=
  (m.find? (fun p => p.1 == id)).map (fun p => p.2)

/-- Modelled from the spec: `PickerTarget::Entity(entity_id).into()` splits
the picker identifier into a high and a low word; the concrete packing is
outside the provided sources and the claims do not depend on it, so it is
modelled as a 32-bit split of the entity id. -/
def pickerTargetSplit (entity_id : ℕ) : ℕ × ℕ :=
  (entity_id / 2 ^ 32, entity_id % 2 ^ 32)

namespace GeometryEntity

/-- `InstanceData` of geometry/entity.rs (lines 27-37). -/
structure InstanceData where
  world : ℤ
  texture_position : ℤ
  texture_size : ℤ
  depth_offset : ℤ
  curvature : ℤ
  mirror : ℕ
  texture_index : ℤ
deriving DecidableEq, Repr

/-- The mutable state of `GeometryEntityDrawer` (lines 39-49) as far as
`prepare` and `draw` touch it.  `bind_group` records the texture views the
bind group references, `bump` the scratch-arena contents (the bump-allocated
`texture_views` vector lives in it), `buffer_capacity` the capacity of the
instance data GPU buffer. -/
structure Drawer where
  solid_pixel_texture : ℕ
  buffer_capacity : ℕ
  bind_group : List ℕ
  draw_count : ℕ
  instance_data : List InstanceData
  bump : List ℕ
  lookup : List (ℕ × ℤ)
deriving DecidableEq, Repr

/-- Packing one instruction into an `InstanceData` record (lines 219-227);
`mirror as u32` becomes 1 or 0. -/
def mkInstance (instruction : EntityInstruction) (texture_index : ℤ) : InstanceData :=
  { world := instruction.world
    texture_position := instruction.texture_position
    texture_size := instruction.texture_size
    depth_offset := instruction.depth_offset
    curvature := instruction.curvature
    mirror := cond instruction.mirror 1 0
    texture_index := texture_index }

/-- Loop-carried state of the `prepare` loop: the dedup table, the
bump-allocated `texture_views` vector and the packed instance records. -/
structure Acc where
  lookup : List (ℕ × ℤ)
  views : List ℕ
  instances : List InstanceData
deriving DecidableEq, Repr

/-- One iteration of the `prepare` loop (geometry/entity.rs lines 207-230).
`texture_index` starts as the current length of `texture_views` (line 208);
on a dedup hit the recorded index is reused (line 213), otherwise the index
is recorded and the texture view pushed (lines 215-216); the instance record
is packed (lines 219-227); finally line 229 pushes the texture view again
unconditionally. -/
def prepareStep (acc : Acc) (instruction : EntityInstruction) : Acc :=
  match lookupGet acc.lookup instruction.texture with
  | some idx =>
      { lookup := acc.lookup
        views := acc.views ++ [instruction.texture]
        instances := acc.instances ++ [mkInstance instruction idx] }
  | none =>
      { lookup := acc.lookup ++ [(instruction.texture, (acc.views.length : ℤ))]
        views := (acc.views ++ [instruction.texture]) ++ [instruction.texture]
        instances := acc.instances ++ [mkInstance instruction ((acc.views.length : ℤ))] }

/-- `GeometryEntityDrawer::prepare` (geometry/entity.rs lines 194-244).
`supportsSparseBinding` models
`features_supported(Features::PARTIALLY_BOUND_BINDING_ARRAY)` and
`maxTextureCount` models `MAX_BINDING_TEXTURE_ARRAY_COUNT`; the
`Buffer::reserve` call is modelled from the spec as growing the capacity on
demand. -/
def prepare (supportsSparseBinding : Bool) (maxTextureCount : ℕ)
    (s : Drawer) (entities : List EntityInstruction) : Drawer :=
  let s := { s with draw_count := entities.length }
  if s.draw_count = 0 then s
  else
    let acc := entities.foldl prepareStep { lookup := [], views := [], instances := [] }
    let views := if acc.views.isEmpty then [s.solid_pixel_texture] else acc.views
    let views := if supportsSparseBinding then views
      else views ++ List.replicate (maxTextureCount - views.length) (views.headD 0)
    { s with
      instance_data := acc.instances
      lookup := acc.lookup
      bump := views
      buffer_capacity := max s.buffer_capacity acc.instances.length
      bind_group := views }

/-- `GeometryEntityDrawer::draw` (geometry/entity.rs lines 182-190). -/
def draw (s : Drawer) : List GpuCommand :=
  if s.draw_count = 0 then []
  else [.setPipeline, .setBindGroup 1, .draw 6 s.draw_count]

end GeometryEntity

namespace PickerEntity

/-- `InstanceData` of picker/entity.rs (lines 26-36). -/
structure InstanceData where
  world : ℤ
  texture_position : ℤ
  texture_size : ℤ
  texture_index : ℤ
  mirror : ℕ
  identifier_high : ℕ
  identifier_low : ℕ
deriving DecidableEq, Repr

/-- The mutable state of `PickerEntityDrawer` (picker/entity.rs lines 38-48)
as far as `prepare` and `draw` touch it. -/
structure Drawer where
  solid_pixel_texture : ℕ
  buffer_capacity : ℕ
  bind_group : List ℕ
  draw_count : ℕ
  instance_data : List InstanceData
  bump : List ℕ
  lookup : List (ℕ × ℤ)
deriving DecidableEq, Repr

/-- Packing one instruction into an `InstanceData` record
(picker/entity.rs lines 179-201). -/
def mkInstance (instruction : EntityInstruction) (texture_index : ℤ) : InstanceData :=
  { world := instruction.world
    texture_position := instruction.texture_position
    texture_size := instruction.texture_size
    texture_index := texture_index
    mirror := cond instruction.mirror 1 0
    identifier_high := (pickerTargetSplit instruction.entity_id).1
    identifier_low := (pickerTargetSplit instruction.entity_id).2 }

/-- Loop-carried state of the picker `prepare` loop. -/
structure Acc where
  lookup : List (ℕ × ℤ)
  views : List ℕ
  instances : List InstanceData
deriving DecidableEq, Repr

/-- One iteration of the picker `prepare` loop (picker/entity.rs lines
178-204), including the unconditional second texture view push of
line 203. -/
def prepareStep (acc : Acc) (instruction : EntityInstruction) : Acc :=
  match lookupGet acc.lookup instruction.texture with
  | some idx =>
      { lookup := acc.lookup
        views := acc.views ++ [instruction.texture]
        instances := acc.instances ++ [mkInstance instruction idx] }
  | none =>
      { lookup := acc.lookup ++ [(instruction.texture, (acc.views.length : ℤ))]
        views := (acc.views ++ [instruction.texture]) ++ [instruction.texture]
        instances := acc.instances ++ [mkInstance instruction ((acc.views.length : ℤ))] }

/-- `PickerEntityDrawer::prepare` (picker/entity.rs lines 163-218).
The draw count is `instructions.entities.len().saturating_sub(1)`
(line 164), which natural subtraction models exactly, and the loop skips
the first instruction (line 178). -/
def prepare (supportsSparseBinding : Bool) (maxTextureCount : ℕ)
    (s : Drawer) (entities : List EntityInstruction) : Drawer :=
  let s := { s with draw_count := entities.length - 1 }
  if s.draw_count = 0 then s
  else
    let acc := (entities.drop 1).foldl prepareStep { lookup := [], views := [], instances := [] }
    let views := if acc.views.isEmpty then [s.solid_pixel_texture] else acc.views
    let views := if supportsSparseBinding then views
      else views ++ List.replicate (maxTextureCount - views.length) (views.headD 0)
    { s with
      instance_data := acc.instances
      lookup := acc.lookup
      bump := views
      buffer_capacity := max s.buffer_capacity acc.instances.length
      bind_group := views }

/-- `PickerEntityDrawer::draw` (picker/entity.rs lines 151-159). -/
def draw (s : Drawer) : List GpuCommand :=
  if s.draw_count = 0 then []
  else [.setPipeline, .setBindGroup 1, .draw 6 s.draw_count]

end PickerEntity

namespace ScreenAabb

/-- `InstanceData` of screen/aabb.rs (lines 24-29). -/
structure InstanceData where
  world : ℤ
  color : ℤ
deriving DecidableEq, Repr

/-- The mutable state of `ScreenAabbDrawer` (screen/aabb.rs lines 31-40) as
far as `prepare` and `draw` touch it. -/
structure Drawer where
  draw_count : ℕ
  instance_data : List InstanceData
deriving DecidableEq, Repr

/-- An AABB render instruction: a world transform and a color, both opaque. -/
structure AabbInstruction where
  world : ℤ
  color : ℤ
deriving DecidableEq, Repr

/-- `ScreenAabbDrawer::prepare` (screen/aabb.rs lines 169-184). -/
def prepare (s : Drawer) (aabb : List AabbInstruction) : Drawer :=
  let s := { s with draw_count := aabb.length }
  if s.draw_count = 0 then s
  else
    { s with instance_data := aabb.map (fun i => { world := i.world, color := i.color }) }

/-- `ScreenAabbDrawer::draw` (screen/aabb.rs lines 155-165);
`INDEX_COUNT = 24`. -/
def draw (s : Drawer) : List GpuCommand :=
  if s.draw_count = 0 then []
  else [.setPipeline, .setBindGroup 2, .setVertexBuffer 0, .setIndexBuffer,
        .drawIndexed 24 0 s.draw_count]

end ScreenAabb

namespace PostProcessingBlitter

/-- Texture formats are modelled as integer tags. -/
abbrev TexFormat := ℕ

/-- Multisample modes are modelled by their sample count: `Msaa::Off` is 1. -/
def msaaOff : ℕ := 1

/-- `Msaa::X4` has sample count 4. -/
def msaaX4 : ℕ := 4

/-- `FXAA_COLOR_LUMA_TEXTURE_FORMAT`: a fixed texture format constant whose
concrete wgpu value is irrelevant to the model; represented by a fixed tag. -/
def FXAA_COLOR_LUMA_TEXTURE_FORMAT : TexFormat := 97

/-- `PipelineKey` (blitter.rs lines 24-30). -/
structure PipelineKey where
  format : TexFormat
  msaa : ℕ
  luma_in_alpha : Bool
  alpha_blending : Bool
deriving DecidableEq, Repr

/-- The mode list built by `PostProcessingBlitterDrawer::new`
(blitter.rs lines 55-65). -/
def modes (surface_texture_format color_texture_format msaa : ℕ) :
    List (ℕ × ℕ × Bool × Bool) :=
  let ms : List (ℕ × ℕ × Bool × Bool) :=
    [(surface_texture_format, msaaOff, false, false),
     (color_texture_format, msaa, false, false),
     (FXAA_COLOR_LUMA_TEXTURE_FORMAT, msaa, true, false)]
  let ms := if (color_texture_format, msaaOff, false, false) ∈ ms then ms
    else ms ++ [(color_texture_format, msaaOff, false, false)]
  let ms := if (color_texture_format, msaaX4, false, true) ∈ ms then ms
    else ms ++ [(color_texture_format, msaaX4, false, true)]
  ms

/-- The pipeline cache populated by `PostProcessingBlitterDrawer::new`
(blitter.rs lines 40-89), modelled by the set of keys it holds (the pipeline
objects themselves are opaque). -/
def new (surface_texture_format color_texture_format msaa : ℕ) : List PipelineKey :=
  (modes surface_texture_format color_texture_format msaa).map
    (fun m => { format := m.1, msaa := m.2.1, luma_in_alpha := m.2.2.1, alpha_blending := m.2.2.2 })

/-- `PostProcessingBlitterDrawer::draw` (blitter.rs lines 91-103).  The
`self.pipeline_cache.get(&key).unwrap()` on line 98 panics on a cache miss;
the panic is modelled by `none`. -/
def draw (pipeline_cache : List PipelineKey) (key : PipelineKey) :
    Option (List GpuCommand) :=
  if key ∈ pipeline_cache then
    some [.setPipeline, .setBindGroup 1, .draw 3 1]
  else none

end PostProcessingBlitter

/-- The payload of a picker instance record without the resolved texture
slot index. -/
def projI (d : PickerEntity.InstanceData) : ℤ × ℤ × ℤ × ℕ × ℕ × ℕ :=
  (d.world, d.texture_position, d.texture_size, d.mirror, d.identifier_high, d.identifier_low)

/-- The same payload computed directly from an instruction. -/
def projE (i : EntityInstruction) : ℤ × ℤ × ℤ × ℕ × ℕ × ℕ :=
  (i.world, i.texture_position, i.texture_size, cond i.mirror 1 0,
    (pickerTargetSplit i.entity_id).1, (pickerTargetSplit i.entity_id).2)

lemma pickerFoldl_instances_proj (l : List EntityInstruction) :
    ∀ acc : PickerEntity.Acc,
      ((l.foldl PickerEntity.prepareStep acc).instances).map projI =
        acc.instances.map projI ++ l.map projE := by
  induction l with
  | nil => intro acc; simp
  | cons i tl ih =>
      intro acc
      rw [List.foldl_cons, ih]
      rcases hmatch : lookupGet acc.lookup i.texture with _ | idx <;>
        simp [PickerEntity.prepareStep, hmatch, PickerEntity.mkInstance, projI, projE]

/-- C2: the claim asserts that `orthographic_lh(left, right, bottom, top,
near, far)` maps view depth `z = near` to clip depth 1 and `z = far` to clip
depth 0 (reverse-Z).  At `(left, right, bottom, top, near, far) =
(0, 1, 0, 1, 1, 100)` the code maps near to 0 (not 1) and far to 1 (not 0),
refuting the claim. -/
theorem C2_counterexample :
    (matVec (orthographic_lh 0 1 0 1 1 100) { x := 0, y := 0, z := 1, w := 1 }).z ≠ 1 ∧
    (matVec (orthographic_lh 0 1 0 1 1 100) { x := 0, y := 0, z := 100, w := 1 }).z ≠ 0 := by
  constructor <;> · simp only [matVec, orthographic_lh] ; norm_num

/-- C2 (amended): `orthographic_lh(left, right, bottom, top, near, far)`
maps a view-space point at depth `z = near` to clip depth 0 and, whenever
`far ≠ near`, a point at `z = far` to clip depth 1: the orthographic builder
produces standard forward depth over `[near, far]`, not reverse-Z (matching
its own doc comment, `depth range of 0.0 (near) to 1.0 (far)`). -/
theorem C2_ortho_forward_depth (left right bottom top near far x y : ℚ) :
    (matVec (orthographic_lh left right bottom top near far)
      { x := x, y := y, z := near, w := 1 }).z = 0 ∧
    (far ≠ near →
      (matVec (orthographic_lh left right bottom top near far)
        { x := x, y := y, z := far, w := 1 }).z = 1) := by
  constructor
  · simp only [matVec, orthographic_lh]
    ring
  · intro h
    have hfn : far - near ≠ 0 := sub_ne_zero.mpr h
    simp only [matVec, orthographic_lh]
    field_simp
    ring

/-- Witness for C2_ortho_forward_depth at the concrete box
`(0, 1, 0, 1, 1, 100)`. -/
theorem C2_ortho_forward_depth_witness :
    (matVec (orthographic_lh 0 1 0 1 1 100) { x := 0, y := 0, z := 1, w := 1 }).z = 0 ∧
    (matVec (orthographic_lh 0 1 0 1 1 100) { x := 0, y := 0, z := 100, w := 1 }).z = 1 :=
  ⟨(C2_ortho_forward_depth 0 1 0 1 1 100 0 0).1,
   (C2_ortho_forward_depth 0 1 0 1 1 100 0 0).2 (by decide)⟩

/-- C3: the claim asserts that the screen round trip reproduces `v.x` within
1e-6 for every `v` with `v.w ≠ 0`.  At `v = (1, 0, 0, 2)` the round trip
returns x = 1/2, off by 1/2, refuting the claim. -/
theorem C3_counterexample :
    ¬ |(screen_to_clip_space (clip_to_screen_space
        { x := 1, y := 0, z := 0, w := 2 })).x - 1| ≤ 1 / 1000000 := by
  simp only [screen_to_clip_space, clip_to_screen_space]
  norm_num
  rw [abs_of_pos] <;> norm_num

/-- C3 (amended): for every clip-space vector `v` with `v.w ≠ 0`,
`screen_to_clip_space (clip_to_screen_space v)` equals
`(v.x / v.w, v.y / v.w, 0, 1)` exactly: the round trip reproduces the
perspective-divided x and y (hence `v.x` and `v.y` themselves whenever
`v.w = 1`), with z fixed to 0 and w fixed to 1. -/
theorem C3_round_trip (v : Vec4 ℚ) (h : v.w ≠ 0) :
    screen_to_clip_space (clip_to_screen_space v) =
      { x := v.x / v.w, y := v.y / v.w, z := 0, w := 1 } := by
  simp only [screen_to_clip_space, clip_to_screen_space, Vec4.mk.injEq]
  refine ⟨by ring, by ring, trivial, trivial⟩

/-- Witness for C3_round_trip at `v = (1, 0, 0, 2)`. -/
theorem C3_round_trip_witness :
    screen_to_clip_space (clip_to_screen_space { x := 1, y := 0, z := 0, w := 2 }) =
      { x := 1 / 2, y := 0 / 2, z := 0, w := 1 } :=
  C3_round_trip { x := 1, y := 0, z := 0, w := 2 } (by decide)

/-- C6: the perspective projection built by `perspective_reverse_lh` maps a
view-space point at the near plane (`z = NEAR_PLANE = 1`) to post-divide
depth exactly 1, the depth `clip.z / clip.w` tends to 0 as the view-space
distance tends to infinity, and the near-plane bias term sits in the
translation column of the z row (`c3.z = NEAR_PLANE`) while the depth
coefficient of that row is zero (`c2.z = 0`). -/
theorem C6_perspective_reverse_depth (vertical_fov aspect_ratio x y : ℝ) :
    (matVec (perspective_reverse_lh vertical_fov aspect_ratio)
        { x := x, y := y, z := 1, w := 1 }).z /
      (matVec (perspective_reverse_lh vertical_fov aspect_ratio)
        { x := x, y := y, z := 1, w := 1 }).w = 1 ∧
    Tendsto (fun z : ℝ =>
      (matVec (perspective_reverse_lh vertical_fov aspect_ratio)
          { x := x, y := y, z := z, w := 1 }).z /
        (matVec (perspective_reverse_lh vertical_fov aspect_ratio)
          { x := x, y := y, z := z, w := 1 }).w) atTop (nhds 0) ∧
    (perspective_reverse_lh vertical_fov aspect_ratio).c3.z = NEAR_PLANE ∧
    (perspective_reverse_lh vertical_fov aspect_ratio).c2.z = 0 := by
  refine ⟨?_, ?_, rfl, rfl⟩
  · simp [matVec, perspective_reverse_lh, NEAR_PLANE]
  · have h : ∀ z : ℝ, z⁻¹ =
        (matVec (perspective_reverse_lh vertical_fov aspect_ratio)
            { x := x, y := y, z := z, w := 1 }).z /
          (matVec (perspective_reverse_lh vertical_fov aspect_ratio)
            { x := x, y := y, z := z, w := 1 }).w := by
      intro z
      simp [matVec, perspective_reverse_lh, NEAR_PLANE, one_div]
    exact tendsto_inv_atTop_zero.congr h

/-- C8: given an empty instruction list, both the geometry entity drawer and
the screen AABB drawer set the draw count to 0 in `prepare`, and their
`draw` issues no GPU commands (no pipeline bind, no bind group bind, no draw
call). -/
theorem C8_zero_instructions (sb : Bool) (maxc : ℕ)
    (s : GeometryEntity.Drawer) (t : ScreenAabb.Drawer) :
    (GeometryEntity.prepare sb maxc s []).draw_count = 0 ∧
    GeometryEntity.draw (GeometryEntity.prepare sb maxc s []) = [] ∧
    (ScreenAabb.prepare t []).draw_count = 0 ∧
    ScreenAabb.draw (ScreenAabb.prepare t []) = [] := by
  exact ⟨rfl, rfl, rfl, rfl⟩

/-- C1: evaluation of `GeometryEntityDrawer::prepare` at the failing input:
two instructions with two distinct texture handles (N = 2, K = 2), on a
backend with partially-bound binding arrays (no padding).  The texture view
array handed to the bind group has 4 entries (not K = 2) because of the
unconditional second push of geometry/entity.rs line 229, and the second
instance record receives texture slot index 2, outside `[0, K)`. -/
theorem C1_failing_input_eval :
    (GeometryEntity.prepare true 16
        { solid_pixel_texture := 99, buffer_capacity := 0, bind_group := [],
          draw_count := 0, instance_data := [], bump := [], lookup := [] }
        [{ texture := 0, world := 0, texture_position := 0, texture_size := 0,
           depth_offset := 0, curvature := 0, mirror := false, entity_id := 0 },
         { texture := 1, world := 0, texture_position := 0, texture_size := 0,
           depth_offset := 0, curvature := 0, mirror := false, entity_id := 1 }]).bind_group.length
      = 4 ∧
    ((GeometryEntity.prepare true 16
        { solid_pixel_texture := 99, buffer_capacity := 0, bind_group := [],
          draw_count := 0, instance_data := [], bump := [], lookup := [] }
        [{ texture := 0, world := 0, texture_position := 0, texture_size := 0,
           depth_offset := 0, curvature := 0, mirror := false, entity_id := 0 },
         { texture := 1, world := 0, texture_position := 0, texture_size := 0,
           depth_offset := 0, curvature := 0, mirror := false, entity_id := 1 }]).instance_data.map
        (fun d => d.texture_index)) = [0, 2] := by
  decide

/-- C7: for the pick-buffer batcher given N ≥ 1 instructions, `prepare` sets
the draw count to exactly N - 1; when N ≥ 2 the packed instance records are,
payload for payload and in order, exactly the instructions after the first
(instruction 0, the locally controlled player entity, is never packed); and
when N = 1 the draw count is 0 and `draw` issues no commands. -/
theorem C7_picker_skips_first (sb : Bool) (maxc : ℕ) (t : PickerEntity.Drawer)
    (l : List EntityInstruction) (h : 1 ≤ l.length) :
    (PickerEntity.prepare sb maxc t l).draw_count = l.length - 1 ∧
    (2 ≤ l.length →
      ((PickerEntity.prepare sb maxc t l).instance_data).map projI =
        (l.drop 1).map projE) ∧
    (l.length = 1 → PickerEntity.draw (PickerEntity.prepare sb maxc t l) = []) := by
  refine ⟨?_, ?_, ?_⟩
  · by_cases hc : l.length - 1 = 0 <;> simp [PickerEntity.prepare, hc]
  · intro h2
    have hc : ¬ l.length - 1 = 0 := by omega
    simp only [PickerEntity.prepare, hc, if_false]
    simpa using pickerFoldl_instances_proj (l.drop 1)
      { lookup := [], views := [], instances := [] }
  · intro h1
    have hc : l.length - 1 = 0 := by omega
    simp [PickerEntity.prepare, PickerEntity.draw, hc]

/-- Witness for C7_picker_skips_first with two concrete instructions. -/
theorem C7_picker_skips_first_witness :
    (PickerEntity.prepare true 8
        { solid_pixel_texture := 50, buffer_capacity := 0, bind_group := [],
          draw_count := 9, instance_data := [], bump := [], lookup := [] }
        [{ texture := 5, world := 1, texture_position := 2, texture_size := 3,
           depth_offset := 4, curvature := 5, mirror := true, entity_id := 21 },
         { texture := 6, world := 9, texture_position := 8, texture_size := 7,
           depth_offset := 6, curvature := 5, mirror := false, entity_id := 22 }]).draw_count
      = ([{ texture := 5, world := 1, texture_position := 2, texture_size := 3,
            depth_offset := 4, curvature := 5, mirror := true, entity_id := 21 },
          { texture := 6, world := 9, texture_position := 8, texture_size := 7,
            depth_offset := 6, curvature := 5, mirror := false, entity_id := 22 }] :
          List EntityInstruction).length - 1 ∧
    ((PickerEntity.prepare true 8
        { solid_pixel_texture := 50, buffer_capacity := 0, bind_group := [],
          draw_count := 9, instance_data := [], bump := [], lookup := [] }
        [{ texture := 5, world := 1, texture_position := 2, texture_size := 3,
           depth_offset := 4, curvature := 5, mirror := true, entity_id := 21 },
         { texture := 6, world := 9, texture_position := 8, texture_size := 7,
           depth_offset := 6, curvature := 5, mirror := false, entity_id := 22 }]).instance_data).map projI
      = (([{ texture := 5, world := 1, texture_position := 2, texture_size := 3,
             depth_offset := 4, curvature := 5, mirror := true, entity_id := 21 },
           { texture := 6, world := 9, texture_position := 8, texture_size := 7,
             depth_offset := 6, curvature := 5, mirror := false, entity_id := 22 }] :
           List EntityInstruction).drop 1).map projE :=
  ⟨(C7_picker_skips_first true 8 _ _ (by decide)).1,
   (C7_picker_skips_first true 8 _ _ (by decide)).2.1 (by decide)⟩

/-- C9: the post-processing blitter pipeline cache built at construction
holds exactly the known combinations of (target format, multisample mode,
luma-in-alpha, alpha-blend), and a draw-time lookup succeeds exactly when
the key is in that populated set; a key outside it makes draw panic
(modelled by `none`), while a populated key never panics. -/
theorem C9_blitter_cache (surface color msaa : ℕ)
    (key : PostProcessingBlitter.PipelineKey) :
    (key ∈ PostProcessingBlitter.new surface color msaa ↔
      (key = { format := surface, msaa := PostProcessingBlitter.msaaOff,
               luma_in_alpha := false, alpha_blending := false } ∨
       key = { format := color, msaa := msaa,
               luma_in_alpha := false, alpha_blending := false } ∨
       key = { format := PostProcessingBlitter.FXAA_COLOR_LUMA_TEXTURE_FORMAT, msaa := msaa,
               luma_in_alpha := true, alpha_blending := false } ∨
       key = { format := color, msaa := PostProcessingBlitter.msaaOff,
               luma_in_alpha := false, alpha_blending := false } ∨
       key = { format := color, msaa := PostProcessingBlitter.msaaX4,
               luma_in_alpha := false, alpha_blending := true })) ∧
    ((PostProcessingBlitter.draw (PostProcessingBlitter.new surface color msaa) key).isSome ↔
      key ∈ PostProcessingBlitter.new surface color msaa) := by
  constructor
  · simp only [PostProcessingBlitter.new, PostProcessingBlitter.modes]
    by_cases h1 : ((color, PostProcessingBlitter.msaaOff, false, false) : ℕ × ℕ × Bool × Bool) ∈
        [(surface, PostProcessingBlitter.msaaOff, false, false),
         (color, msaa, false, false),
         (PostProcessingBlitter.FXAA_COLOR_LUMA_TEXTURE_FORMAT, msaa, true, false)]
    · rw [if_pos h1, if_neg (by simp)]
      simp only [List.mem_cons, List.not_mem_nil, or_false, Prod.mk.injEq,
        PostProcessingBlitter.FXAA_COLOR_LUMA_TEXTURE_FORMAT] at h1
      rcases h1 with ⟨hcs, -⟩ | ⟨-, hms, -⟩ | ⟨-, -, hlm, -⟩
      · subst hcs
        simp [List.mem_map, PostProcessingBlitter.PipelineKey.mk.injEq]
        tauto
      · subst hms
        simp [List.mem_map, PostProcessingBlitter.PipelineKey.mk.injEq]
        tauto
      · exact absurd hlm (by simp)
    · rw [if_neg h1, if_neg (by simp)]
      simp [List.mem_map, PostProcessingBlitter.PipelineKey.mk.injEq]
  · unfold PostProcessingBlitter.draw
    split_ifs with h <;> simp [h]

/-- C10: when `prepare` takes the zero-draw-count fast path (an empty
instruction list for the geometry entity drawer; at most one instruction
for the pick-buffer drawer), every drawer field other than the draw count
keeps its previous-frame contents: the instance array, the texture dedup
table, the scratch arena, the GPU buffer capacity and the bind group are
all unchanged. -/
theorem C10_fast_path_state (sb : Bool) (maxc : ℕ)
    (s : GeometryEntity.Drawer) (t : PickerEntity.Drawer)
    (l : List EntityInstruction) (h : l.length ≤ 1) :
    GeometryEntity.prepare sb maxc s [] = { s with draw_count := 0 } ∧
    PickerEntity.prepare sb maxc t l = { t with draw_count := 0 } := by
  constructor
  · rfl
  · have h0 : l.length - 1 = 0 := by omega
    simp [PickerEntity.prepare, h0]

/-- Witness for C10_fast_path_state with a single picker instruction. -/
theorem C10_fast_path_state_witness :
    GeometryEntity.prepare true 4
        { solid_pixel_texture := 7, buffer_capacity := 3, bind_group := [1],
          draw_count := 5, instance_data := [], bump := [2], lookup := [(1, 0)] } [] =
      { solid_pixel_texture := 7, buffer_capacity := 3, bind_group := [1],
        draw_count := 0, instance_data := [], bump := [2], lookup := [(1, 0)] } ∧
    PickerEntity.prepare true 4
        { solid_pixel_texture := 8, buffer_capacity := 2, bind_group := [4],
          draw_count := 6, instance_data := [], bump := [5], lookup := [(2, 1)] }
        [{ texture := 3, world := 0, texture_position := 0, texture_size := 0,
           depth_offset := 0, curvature := 0, mirror := false, entity_id := 11 }] =
      { solid_pixel_texture := 8, buffer_capacity := 2, bind_group := [4],
        draw_count := 0, instance_data := [], bump := [5], lookup := [(2, 1)] } :=
  C10_fast_path_state true 4 _ _ _ (by decide)

lemma sqrt_two_sq : Real.sqrt 2 ^ 2 = 2 := Real.sq_sqrt (by norm_num)

lemma one_le_sqrt_two : (1 : ℝ) ≤ Real.sqrt 2 := by
  nlinarith [sqrt_two_sq, Real.sqrt_nonneg 2]

lemma sqrt_two_lt : Real.sqrt 2 < 1.4143 := by
  nlinarith [sqrt_two_sq, Real.sqrt_nonneg 2]

lemma tan_pi_div_eight_eq : Real.tan (π / 8) = Real.sqrt 2 - 1 := by
  have hs2 := sqrt_two_sq
  have h1 := one_le_sqrt_two
  have hp : (0 : ℝ) ≤ 2 + Real.sqrt 2 := by linarith [Real.sqrt_nonneg 2]
  have key : Real.sqrt (2 - Real.sqrt 2) = (Real.sqrt 2 - 1) * Real.sqrt (2 + Real.sqrt 2) := by
    have hnn : 0 ≤ (Real.sqrt 2 - 1) * Real.sqrt (2 + Real.sqrt 2) :=
      mul_nonneg (by linarith) (Real.sqrt_nonneg _)
    have hsq : ((Real.sqrt 2 - 1) * Real.sqrt (2 + Real.sqrt 2)) ^ 2 = 2 - Real.sqrt 2 := by
      rw [mul_pow, Real.sq_sqrt hp]
      linear_combination Real.sqrt 2 * hs2
    rw [← hsq, Real.sqrt_sq hnn]
  have hpos : (0 : ℝ) < Real.sqrt (2 + Real.sqrt 2) :=
    Real.sqrt_pos.mpr (by linarith [Real.sqrt_nonneg 2])
  rw [Real.tan_eq_sin_div_cos, Real.sin_pi_div_eight, Real.cos_pi_div_eight, key]
  field_simp

lemma arctan_sqrt_two_sub_one : Real.arctan (Real.sqrt 2 - 1) = π / 8 := by
  rw [← tan_pi_div_eight_eq]
  exact Real.arctan_tan (by linarith [Real.pi_pos]) (by linarith [Real.pi_pos])

lemma k_floor_eight {θ : ℝ} (h1 : π / 8 ≤ θ) (h2 : θ < 3 * π / 8) :
    ⌊(θ * (180 / π) + 360 - 22.5) / 45⌋ = 8 := by
  have hπ : (0 : ℝ) < π := Real.pi_pos
  have hx : (θ * (180 / π) + 360 - 22.5) / 45 = θ * (4 / π) + 7.5 := by
    field_simp
    ring
  have h3 : (1 : ℝ) / 2 ≤ θ * (4 / π) := by
    have h4 : π / 8 * (4 / π) ≤ θ * (4 / π) :=
      mul_le_mul_of_nonneg_right h1 (by positivity)
    have h5 : π / 8 * (4 / π) = 1 / 2 := by field_simp; ring
    linarith
  have h6 : θ * (4 / π) < 3 / 2 := by
    have h7 : θ * (4 / π) < 3 * π / 8 * (4 / π) :=
      mul_lt_mul_of_pos_right h2 (by positivity)
    have h8 : 3 * π / 8 * (4 / π) = 3 / 2 := by field_simp; ring
    linarith
  rw [hx, Int.floor_eq_iff]
  constructor
  · push_cast
    linarith
  · push_cast
    linarith

lemma k_floor_seven {θ : ℝ} (h1 : 0 ≤ θ) (h2 : θ < π / 8) :
    ⌊(θ * (180 / π) + 360 - 22.5) / 45⌋ = 7 := by
  have hπ : (0 : ℝ) < π := Real.pi_pos
  have hx : (θ * (180 / π) + 360 - 22.5) / 45 = θ * (4 / π) + 7.5 := by
    field_simp
    ring
  have h3 : (0 : ℝ) ≤ θ * (4 / π) := mul_nonneg h1 (by positivity)
  have h6 : θ * (4 / π) < 1 / 2 := by
    have h7 : θ * (4 / π) < π / 8 * (4 / π) :=
      mul_lt_mul_of_pos_right h2 (by positivity)
    have h8 : π / 8 * (4 / π) = 1 / 2 := by field_simp; ring
    linarith
  rw [hx, Int.floor_eq_iff]
  constructor
  · push_cast
    linarith
  · push_cast
    linarith

lemma direction_eq_zero {x y : ℝ} (hy : 0 < y)
    (h0 : 0 ≤ x / Real.sqrt (x ^ 2 + y ^ 2) / y)
    (h1 : x / Real.sqrt (x ^ 2 + y ^ 2) / y < Real.sqrt 2 - 1) :
    direction x y = 0 := by
  unfold direction ratan2
  rw [if_pos hy, k_floor_seven ?hlo ?hhi]
  · decide
  case hlo =>
    calc (0 : ℝ) = Real.arctan 0 := Real.arctan_zero.symm
    _ ≤ _ := Real.arctan_strictMono.monotone h0
  case hhi =>
    calc Real.arctan _ < Real.arctan (Real.sqrt 2 - 1) := Real.arctan_strictMono h1
    _ = π / 8 := arctan_sqrt_two_sub_one

lemma direction_eq_seven {x y : ℝ} (hy : 0 < y)
    (h1 : Real.sqrt 2 - 1 ≤ x / Real.sqrt (x ^ 2 + y ^ 2) / y)
    (h2 : x / Real.sqrt (x ^ 2 + y ^ 2) / y < 1) :
    direction x y = 7 := by
  unfold direction ratan2
  rw [if_pos hy, k_floor_eight ?hlo ?hhi]
  · decide
  case hlo =>
    calc π / 8 = Real.arctan (Real.sqrt 2 - 1) := arctan_sqrt_two_sub_one.symm
    _ ≤ _ := Real.arctan_strictMono.monotone h1
  case hhi =>
    calc Real.arctan _ < Real.arctan 1 := Real.arctan_strictMono h2
    _ = π / 4 := Real.arctan_one
    _ < 3 * π / 8 := by linarith [Real.pi_pos]

lemma direction_claimed_eq_seven {x y : ℝ} (hy : 0 < y)
    (h1 : Real.sqrt 2 - 1 ≤ x / y) (h2 : x / y < 1) :
    direction_claimed x y = 7 := by
  unfold direction_claimed ratan2
  rw [if_pos hy, k_floor_eight ?hlo ?hhi]
  · decide
  case hlo =>
    calc π / 8 = Real.arctan (Real.sqrt 2 - 1) := arctan_sqrt_two_sub_one.symm
    _ ≤ _ := Real.arctan_strictMono.monotone h1
  case hhi =>
    calc Real.arctan _ < Real.arctan 1 := Real.arctan_strictMono h2
    _ = π / 4 := Real.arctan_one
    _ < 3 * π / 8 := by linarith [Real.pi_pos]

/-- C4: the claim states that the code buckets using
`k = floor((atan2(x, y) * 180/PI + 360 - 22.5) / 45)` on the raw vector.
At the vector `(21/50, 1)` the code (which passes `vector.normalize().x`
but the raw `vector.y` to atan2) lands in a different bucket than the
claimed formula: the code returns 0 while the claimed formula returns 7. -/
theorem C4_counterexample :
    direction (21 / 50) 1 = 0 ∧ direction_claimed (21 / 50) 1 = 7 ∧
    direction (21 / 50) 1 ≠ direction_claimed (21 / 50) 1 := by
  have hs2 := sqrt_two_sq
  have hlt := sqrt_two_lt
  have hge1 := one_le_sqrt_two
  have hd : direction (21 / 50) 1 = 0 := by
    apply direction_eq_zero (by norm_num)
    · positivity
    · have hr2 : Real.sqrt ((21 / 50 : ℝ) ^ 2 + 1 ^ 2) ^ 2 = (21 / 50 : ℝ) ^ 2 + 1 ^ 2 :=
        Real.sq_sqrt (by positivity)
      have hrpos : (0 : ℝ) < Real.sqrt ((21 / 50 : ℝ) ^ 2 + 1 ^ 2) :=
        Real.sqrt_pos.mpr (by norm_num)
      apply lt_of_pow_lt_pow_left₀ 2 (by linarith)
      rw [div_pow, div_pow, hr2]
      nlinarith
  have hc : direction_claimed (21 / 50) 1 = 7 := by
    apply direction_claimed_eq_seven (by norm_num)
    · rw [div_one]
      nlinarith
    · norm_num
  exact ⟨hd, hc, by rw [hd, hc]; norm_num⟩

/-- C4 (amended): the direction bucketing computes
`k = floor((atan2(x / sqrt(x^2 + y^2), y) * 180/PI + 360 - 22.5) / 45)`
(the x component normalized by the full vector magnitude, the y component
raw) and returns `(~k) & 7`, an octant index in the range 0..8. -/
theorem C4_direction_formula (x y : ℝ) :
    direction x y = direction_normalized_x x y ∧ direction x y < 8 := by
  refine ⟨rfl, ?_⟩
  unfold direction
  omega

/-- C5: the claim states that the octant is invariant under scaling the view
vector by any positive scalar.  Scaling `(1, 1)` by 2 changes the octant
from 7 to 0 (because the code passes the normalized x but the raw,
scale-dependent y to atan2), refuting the claim. -/
theorem C5_counterexample : direction (2 * 1) (2 * 1) ≠ direction 1 1 := by
  have hs2 := sqrt_two_sq
  have hlt := sqrt_two_lt
  have hge1 := one_le_sqrt_two
  have h11 : direction 1 1 = 7 := by
    apply direction_eq_seven (by norm_num)
    · rw [show ((1 : ℝ) ^ 2 + 1 ^ 2) = 2 by norm_num, div_one,
        le_div_iff₀ (Real.sqrt_pos.mpr (by norm_num))]
      nlinarith
    · rw [show ((1 : ℝ) ^ 2 + 1 ^ 2) = 2 by norm_num, div_one,
        div_lt_one (Real.sqrt_pos.mpr (by norm_num))]
      nlinarith
  have h22 : direction (2 * 1) (2 * 1) = 0 := by
    rw [show (2 : ℝ) * 1 = 2 by norm_num]
    apply direction_eq_zero (by norm_num)
    · positivity
    · have hr2 : Real.sqrt ((2 : ℝ) ^ 2 + 2 ^ 2) ^ 2 = (2 : ℝ) ^ 2 + 2 ^ 2 :=
        Real.sq_sqrt (by positivity)
      have hrpos : (0 : ℝ) < Real.sqrt ((2 : ℝ) ^ 2 + 2 ^ 2) :=
        Real.sqrt_pos.mpr (by norm_num)
      apply lt_of_pow_lt_pow_left₀ 2 (by linarith)
      rw [div_pow, div_pow, hr2]
      nlinarith
  rw [h22, h11]
  norm_num

/-- C5 (amended): the octant is invariant under scaling by a positive
scalar for view vectors lying on the x axis (`y = 0`): there the only
scale-sensitive input of the bucketing, the raw y component, is fixed at 0
and the normalized x component is unchanged by positive scaling. -/
theorem C5_scale_invariant_on_axis (x y s : ℝ) (hs : 0 < s) (hy : y = 0) :
    direction (s * x) (s * y) = direction x y := by
  subst hy
  rw [mul_zero]
  unfold direction
  have harg : s * x / Real.sqrt ((s * x) ^ 2 + 0 ^ 2) = x / Real.sqrt (x ^ 2 + 0 ^ 2) := by
    rw [show ((s * x) ^ 2 + (0 : ℝ) ^ 2) = (s * x) ^ 2 by ring,
      show (x ^ 2 + (0 : ℝ) ^ 2) = x ^ 2 by ring,
      Real.sqrt_sq_eq_abs, Real.sqrt_sq_eq_abs, abs_mul, abs_of_pos hs,
      mul_div_mul_left x |x| (ne_of_gt hs)]
  rw [harg]

/-- Witness for C5_scale_invariant_on_axis at `v = (1, 0)`, `s = 2`. -/
theorem C5_scale_invariant_on_axis_witness :
    direction (2 * 1) (2 * 0) = direction 1 0 :=
  C5_scale_invariant_on_axis 1 0 2 two_pos rfl
